import Mathlib

/-!
Verification development for the DocFlow document-processing platform.

The definitions below are a shallow embedding of the TypeScript source:
  * the worker pipeline (`DocumentProcessingService` — `processDocument`,
    `startProcessing`) is modelled as explicit state passing plus a trace
    of durable-write and publish actions;
  * the ingest orchestrator (`DocumentsService.uploadDocument`,
    `validateFile` and the typed HTTP exceptions) is modelled as a pure
    function from inputs and a failure scenario to an HTTP outcome and a
    store state;
  * the SSE bridge (`ProgressSseService`, `ProgressController`) is
    modelled with an explicit Express-style response record in which the
    headers, once flushed, fix what the client observes on the wire.

Wall-clock timestamps that the source fills with `new Date()` are threaded
as explicit natural-number parameters (epoch milliseconds); the ISO string
`publishedAt` field of events is not modelled since no property depends
on it.
-/

namespace DocFlow

/-! ## Shared data model (`@docflow/database`) -/

/-- `DocumentStatus` enum of the database library. -/
inductive DocumentStatus
  | uploaded
  | processing
  | completed
  | failed
deriving DecidableEq, Repr

/-- `ProcessingJobStatus` enum of the database library. -/
inductive ProcessingJobStatus
  | pending
  | running
  | completed
  | failed
deriving DecidableEq, Repr

/-- `Document` entity row. `fileSize` is stored as a string by the pg
driver (bigint column), exactly as the source stores
`fileSizeBytes.toString()`. Timestamps are epoch milliseconds. -/
structure Document where
  id : String
  ownerId : String
  title : String
  fileUrl : String
  mimeType : String
  fileSize : String
  status : DocumentStatus
  pageCount : Option Nat
  createdAt : Nat
deriving DecidableEq, Repr

/-- `ProcessingJob` entity row. -/
structure ProcessingJob where
  id : String
  documentId : String
  status : ProcessingJobStatus
  progress : Nat
  errorMessage : Option String
  startedAt : Option Nat
  completedAt : Option Nat
  createdAt : Nat
deriving DecidableEq, Repr

/-- gRPC timestamp `{seconds, nanos}` as built by `toGrpcTimestamp`. -/
structure GrpcTimestamp where
  seconds : Nat
  nanos : Nat
deriving DecidableEq, Repr

/-- `toGrpcTimestamp(date)` of the worker service: the argument is the
epoch-millisecond value of the date. -/
def toGrpcTimestamp (ms : Nat) : GrpcTimestamp :=
  { seconds := ms / 1000, nanos := ms % 1000 * 1000000 }

/-! ## Worker pipeline (`DocumentProcessingService`) -/

/-- `SIMULATED_PAGE_COUNT` constant of the worker. -/
def SIMULATED_PAGE_COUNT : Nat := 12

/-- `PAGE_PROCESSING_DELAY_MS` constant of the worker. -/
def PAGE_PROCESSING_DELAY_MS : Nat := 400

/-- Redis channel key factory `doc:{jobId}:progress`. -/
def progressChannel (jobId : String) : String :=
  "doc:" ++ jobId ++ ":progress"

/-- The status union of the `ProgressEvent` wire interface
(`'PENDING' | 'RUNNING' | 'COMPLETED' | 'FAILED'`). -/
inductive EventStatus
  | PENDING
  | RUNNING
  | COMPLETED
  | FAILED
deriving DecidableEq, Repr

/-- `ProgressEvent` published on the Redis channel (the ISO `publishedAt`
wall-clock field is outside the embedding). -/
structure ProgressEvent where
  jobId : String
  documentId : String
  status : EventStatus
  progress : Nat
  message : String
  currentPage : Nat
  totalPages : Nat
  errorMessage : Option String
deriving DecidableEq, Repr

/-- JavaScript `Math.round` applied to the nonnegative rational `a / b`
(`b > 0`): `floor (a / b + 1 / 2)`, computed in natural arithmetic. -/
def jsRound (a b : Nat) : Nat := (2 * a + b) / (2 * b)

/-- Per-page reported progress of the worker loop:
`Math.round((page / totalPages) * 95)` with `totalPages = 12`. -/
def pageProgress (page : Nat) : Nat :=
  jsRound (page * 95) SIMULATED_PAGE_COUNT

/-- The initial RUNNING event published right after the RUNNING transition. -/
def startEvent (jobId documentId : String) : ProgressEvent :=
  { jobId := jobId, documentId := documentId, status := .RUNNING, progress := 0
    message := "Processing started — " ++ toString SIMULATED_PAGE_COUNT ++ " pages queued"
    currentPage := 0, totalPages := SIMULATED_PAGE_COUNT, errorMessage := none }

/-- The per-page RUNNING event published inside the simulation loop. -/
def pageEvent (jobId documentId : String) (page : Nat) : ProgressEvent :=
  { jobId := jobId, documentId := documentId, status := .RUNNING
    progress := pageProgress page
    message := "Processing page " ++ toString page ++ " of " ++ toString SIMULATED_PAGE_COUNT
    currentPage := page, totalPages := SIMULATED_PAGE_COUNT, errorMessage := none }

/-- The terminal COMPLETED event. -/
def completedEvent (jobId documentId : String) : ProgressEvent :=
  { jobId := jobId, documentId := documentId, status := .COMPLETED, progress := 100
    message := "Processing complete — " ++ toString SIMULATED_PAGE_COUNT ++ " pages extracted"
    currentPage := SIMULATED_PAGE_COUNT, totalPages := SIMULATED_PAGE_COUNT
    errorMessage := none }

/-- The terminal FAILED event published from the catch block. -/
def failedEvent (jobId documentId errMsg : String) : ProgressEvent :=
  { jobId := jobId, documentId := documentId, status := .FAILED, progress := 0
    message := "Processing failed", currentPage := 0
    totalPages := SIMULATED_PAGE_COUNT, errorMessage := some errMsg }

/-- The durable writes `startProcessing` issues against the store
(each is one `jobRepository.update` / `documentRepository.update`). -/
inductive JobPatch
  | runningTransition
  | pageUpdate (page : Nat)
  | completedTransition
  | documentCompleted
  | failedTransition
deriving DecidableEq, Repr

/-- One observable action of the worker task: a durable write (with the
outcome the store gave it) or a channel publish. -/
inductive WorkerAction
  | dbWrite (patch : JobPatch) (ok : Bool)
  | publish (e : ProgressEvent)
deriving DecidableEq, Repr

/-- Failure scenario for one `startProcessing` execution: which awaited
step of the try block throws (if any). `atPageSleep p` fails the sleep of
page `p` before its durable write, `atPageWrite p` fails the durable write
of page `p` itself. -/
inductive FailPoint
  | noFailure
  | atRunningWrite
  | atPageSleep (page : Nat)
  | atPageWrite (page : Nat)
  | atCompletedWrite
  | atDocumentWrite
deriving DecidableEq, Repr

/-- A worker execution scenario: the failing step, and whether the
`FAILED`-status persist issued from the catch block itself succeeds
(the source swallows its rejection with a logging `.catch`). -/
structure WorkerScenario where
  failPoint : FailPoint
  failedPersistOk : Bool
deriving DecidableEq, Repr

/-- The page simulation loop of `startProcessing`, as the list of actions
it performs and whether it aborted into the catch block. The fuel is the
number of remaining pages; `page` is the current 1-based page counter. -/
def pageLoop (sc : WorkerScenario) (jobId documentId : String) :
    Nat → Nat → List WorkerAction × Bool
  | 0, _ => ([], false)
  | fuel + 1, page =>
    if sc.failPoint = .atPageSleep page then
      ([], true)
    else if sc.failPoint = .atPageWrite page then
      ([.dbWrite (.pageUpdate page) false], true)
    else
      let rest := pageLoop sc jobId documentId fuel (page + 1)
      (.dbWrite (.pageUpdate page) true :: .publish (pageEvent jobId documentId page) :: rest.1,
       rest.2)

/-- The catch block of `startProcessing`: attempt to persist the FAILED
transition (its own rejection is swallowed), then publish the FAILED
event best-effort. -/
def catchTrace (sc : WorkerScenario) (jobId documentId : String) : List WorkerAction :=
  [.dbWrite .failedTransition sc.failedPersistOk,
   .publish (failedEvent jobId documentId "processing step failed")]

/-- The action trace of one `startProcessing(jobId, documentId)` execution
under scenario `sc`: RUNNING transition, initial event, per-page loop,
completion writes and event — diverting to the catch block at the
scenario's failing step. -/
def startProcessingTrace (jobId documentId : String) (sc : WorkerScenario) :
    List WorkerAction :=
  if sc.failPoint = .atRunningWrite then
    .dbWrite .runningTransition false :: catchTrace sc jobId documentId
  else
    let pre : List WorkerAction :=
      [.dbWrite .runningTransition true, .publish (startEvent jobId documentId)]
    let pages := pageLoop sc jobId documentId SIMULATED_PAGE_COUNT 1
    if pages.2 then
      pre ++ pages.1 ++ catchTrace sc jobId documentId
    else if sc.failPoint = .atCompletedWrite then
      pre ++ pages.1 ++ (.dbWrite .completedTransition false :: catchTrace sc jobId documentId)
    else if sc.failPoint = .atDocumentWrite then
      pre ++ pages.1 ++
        (.dbWrite .completedTransition true ::
         .dbWrite .documentCompleted false :: catchTrace sc jobId documentId)
    else
      pre ++ pages.1 ++
        [.dbWrite .completedTransition true, .dbWrite .documentCompleted true,
         .publish (completedEvent jobId documentId)]

/-- The durable write that corresponds to a published event: the initial
RUNNING event (currentPage 0) corresponds to the RUNNING transition, the
per-page events to the per-page progress update, and the terminal events
to the terminal transitions. -/
def eventPatch (e : ProgressEvent) : JobPatch :=
  match e.status with
  | .RUNNING => if e.currentPage = 0 then .runningTransition else .pageUpdate e.currentPage
  | .COMPLETED => .completedTransition
  | .FAILED => .failedTransition
  | .PENDING => .runningTransition

/-- Does an earlier durable write `w` cover the publish of event `e`?
It must be the corresponding patch, and it must have succeeded — except
for the FAILED event, whose preceding persist attempt is tolerated to
fail by the source's catch block. -/
def writeCovers (e : ProgressEvent) (w : JobPatch × Bool) : Bool :=
  w.1 == eventPatch e && (w.2 || e.status == .FAILED)

/-- Walk a trace, accumulating the durable writes seen so far, and check
that every publish is covered by an earlier write. -/
def ordCheck : List WorkerAction → List (JobPatch × Bool) → Bool
  | [], _ => true
  | .dbWrite p ok :: rest, written => ordCheck rest ((p, ok) :: written)
  | .publish e :: rest, written => written.any (writeCovers e) && ordCheck rest written

/-- The durable writes occurring in a trace, in order. -/
def writesOf (l : List WorkerAction) : List (JobPatch × Bool) :=
  l.filterMap fun a =>
    match a with
    | .dbWrite p ok => some (p, ok)
    | .publish _ => none

/-- Bound check on one event: RUNNING implies progress ≤ 99 and
COMPLETED implies progress = 100. -/
def eventWithinBounds (e : ProgressEvent) : Bool :=
  (e.status != .RUNNING || decide (e.progress ≤ 99)) &&
    (e.status != .COMPLETED || e.progress == 100)

/-- All events published in a trace satisfy the bound check. -/
def publishedEventsOk (l : List WorkerAction) : Bool :=
  l.all fun a =>
    match a with
    | .publish e => eventWithinBounds e
    | .dbWrite _ _ => true

/-- The progress values of the published events of a trace, in publish
order. -/
def publishedProgressList (l : List WorkerAction) : List Nat :=
  l.filterMap fun a =>
    match a with
    | .publish e => some e.progress
    | .dbWrite _ _ => none

/-! ## Worker unary RPC `processDocument` -/

/-- gRPC status codes the worker surface produces. -/
inductive GrpcErrorKind
  | invalidArgument
  | notFound
  | internal
deriving DecidableEq, Repr

/-- `ProcessDocumentResponse` of the proto surface. -/
structure ProcessDocumentResponse where
  jobId : String
  status : ProcessingJobStatus
  acceptedAt : GrpcTimestamp
deriving DecidableEq, Repr

/-- The worker process's view of the database. -/
structure WorkerStore where
  documents : List Document
  jobs : List ProcessingJob
deriving DecidableEq, Repr

/-- Failure scenario for the two awaited writes inside the try block of
`processDocument`: the `jobRepository.save` and the
`documentRepository.update`. -/
structure WorkerDbScenario where
  jobSaveFails : Bool
  documentUpdateFails : Bool
deriving DecidableEq, Repr

/-- `documentRepository.findOne({ where: { id, ownerId } })`. -/
def findDocumentOwned (s : WorkerStore) (documentId userId : String) : Option Document :=
  s.documents.find? fun d => d.id == documentId && d.ownerId == userId

/-- `jobRepository.findOne({ where: { documentId, status: RUNNING } })`. -/
def findRunningJob (s : WorkerStore) (documentId : String) : Option ProcessingJob :=
  s.jobs.find? fun jb => jb.documentId == documentId && jb.status == .running

/-- The unary RPC `processDocument`: validate the request, guard against a
duplicate RUNNING job, create the PENDING job row, then flip the Document
to PROCESSING. There is no transaction around the last two writes: a
failing document update leaves the freshly saved job row in place, which
is why the store is returned alongside the (possibly failing) RPC result.
`freshJobId` and `now` stand for the id and `createdAt` the store assigns
to the saved row. -/
def processDocument (documentId userId : String) (s : WorkerStore)
    (sc : WorkerDbScenario) (freshJobId : String) (now : Nat) :
    Except GrpcErrorKind ProcessDocumentResponse × WorkerStore :=
  if documentId = "" || userId = "" then
    (.error .invalidArgument, s)
  else
    match findDocumentOwned s documentId userId with
    | none => (.error .notFound, s)
    | some _ =>
      match findRunningJob s documentId with
      | some existingRunningJob =>
          (.ok { jobId := existingRunningJob.id, status := existingRunningJob.status,
                 acceptedAt := toGrpcTimestamp existingRunningJob.createdAt }, s)
      | none =>
        if sc.jobSaveFails then
          (.error .internal, s)
        else
          let savedJob : ProcessingJob :=
            { id := freshJobId, documentId := documentId, status := .pending
              progress := 0, errorMessage := none, startedAt := none
              completedAt := none, createdAt := now }
          let s₁ : WorkerStore := { s with jobs := s.jobs ++ [savedJob] }
          if sc.documentUpdateFails then
            (.error .internal, s₁)
          else
            let s₂ : WorkerStore :=
              { s₁ with documents := s₁.documents.map fun d =>
                  if d.id == documentId then { d with status := .processing } else d }
            (.ok { jobId := savedJob.id, status := savedJob.status,
                   acceptedAt := toGrpcTimestamp savedJob.createdAt }, s₂)

/-! ## Ingest orchestrator (`DocumentsService`) -/

/-- `BYTES_PER_MB` constant of the documents service. -/
def BYTES_PER_MB : Nat := 1024 * 1024

/-- `ALLOWED_MIME_TYPES` allowlist of the document exceptions module. -/
def ALLOWED_MIME_TYPES : List String :=
  ["application/pdf", "image/png", "image/jpeg", "image/webp"]

/-- A Multer file living in memory storage. `hasBuffer` models the
`!file.buffer` truthiness check of `validateFile`. -/
structure MulterFile where
  originalname : String
  mimetype : String
  size : Nat
  hasBuffer : Bool
deriving DecidableEq, Repr

/-- The typed HTTP exceptions thrown by the upload flow
(`document.exceptions.ts`). -/
inductive UploadError
  | missingFile
  | invalidMimeType (received : String)
  | fileTooLarge (maxSizeMb : Nat)
  | storageUpload
  | documentCreation
  | grpcDispatch (documentId : String)
deriving DecidableEq, Repr

/-- JSON body of a NestJS `HttpException` response. -/
structure ErrorBody where
  statusCode : Nat
  error : String
  message : String
deriving DecidableEq, Repr

/-- The allowlist rendered as in the 415 message:
`ALLOWED_MIME_TYPES.join(', ')`. -/
def allowedTypesJoined : String := String.intercalate ", " ALLOWED_MIME_TYPES

/-- The response bodies of the typed upload exceptions, copied from their
constructors in `document.exceptions.ts` (the 502 storage body carries
the storage service's message shape). -/
def uploadErrorBody : UploadError → ErrorBody
  | .missingFile =>
      { statusCode := 400, error := "Bad Request"
        message := "A file must be attached to the \"file\" multipart field" }
  | .invalidMimeType received =>
      { statusCode := 415, error := "Unsupported Media Type"
        message := "File type \"" ++ received ++ "\" is not supported. Allowed types: "
          ++ allowedTypesJoined }
  | .fileTooLarge maxSizeMb =>
      { statusCode := 413, error := "Payload Too Large"
        message := "File exceeds the maximum allowed size of " ++ toString maxSizeMb ++ " MB" }
  | .storageUpload =>
      { statusCode := 502, error := "Bad Gateway"
        message := "Failed to store the uploaded file" }
  | .documentCreation =>
      { statusCode := 500, error := "Internal Server Error"
        message := "Failed to create document record. Please try again." }
  | .grpcDispatch documentId =>
      { statusCode := 202, error := "Processing Deferred"
        message := "Document " ++ documentId ++
          " was saved but worker could not be notified. Processing will start on retry." }

/-- HTTP status of a typed upload exception. -/
def uploadErrorStatus (e : UploadError) : Nat := (uploadErrorBody e).statusCode

/-- `DocumentsService.validateFile`: presence/non-emptiness, MIME
allowlist, then size limit, in that order. -/
def validateFile (file : Option MulterFile) (maxFileSizeBytes : Nat) :
    Except UploadError Unit :=
  match file with
  | none => .error .missingFile
  | some f =>
    if !f.hasBuffer || f.size == 0 then
      .error .missingFile
    else if !(ALLOWED_MIME_TYPES.contains f.mimetype) then
      .error (.invalidMimeType f.mimetype)
    else if maxFileSizeBytes < f.size then
      .error (.fileTooLarge (maxFileSizeBytes / BYTES_PER_MB))
    else
      .ok ()

/-- JavaScript `String.prototype.trim`: strip leading and trailing
whitespace. Modelled on the character list so that it evaluates inside
the kernel (Lean's own `String.trim` is extensionally the same but does
not reduce). -/
def jsTrim (s : String) : String :=
  ⟨((s.data.dropWhile Char.isWhitespace).reverse.dropWhile Char.isWhitespace).reverse⟩

/-- Title selection of `uploadDocument`:
`dto.title?.trim() || validatedFile.originalname`. An absent or
blank-after-trim title falls back to the original filename as-is. -/
def uploadTitle (dtoTitle : Option String) (originalname : String) : String :=
  match dtoTitle with
  | none => originalname
  | some t =>
    let trimmed := jsTrim t
    if trimmed = "" then originalname else trimmed

/-- Failure scenario for one upload: does the MinIO upload reject, does
the DB transaction reject, does the worker gRPC dispatch reject. -/
structure UploadScenario where
  storageFails : Bool
  transactionFails : Bool
  grpcDispatchFails : Bool
deriving DecidableEq, Repr

/-- The gateway's view of the database. -/
structure GatewayStore where
  documents : List Document
  jobs : List ProcessingJob
deriving DecidableEq, Repr

/-- `UploadDocumentResponseDto` (201 body). `createdAt` is the document's
creation instant (serialized to ISO by the source). -/
structure UploadResponseBody where
  documentId : String
  jobId : String
  status : ProcessingJobStatus
  title : String
  fileUrl : String
  fileSizeBytes : Nat
  mimeType : String
  createdAt : Nat
deriving DecidableEq, Repr

/-- An HTTP response body: either the upload DTO or a NestJS exception
body. -/
inductive HttpBody
  | uploadBody (b : UploadResponseBody)
  | errorBody (b : ErrorBody)
deriving DecidableEq, Repr

/-- Is the body the success DTO shape? -/
def HttpBody.isUploadBody : HttpBody → Bool
  | .uploadBody _ => true
  | .errorBody _ => false

/-- The status code and body the HTTP client observes. -/
structure HttpOutcome where
  status : Nat
  body : HttpBody
deriving DecidableEq, Repr

/-- `DocumentsService.uploadDocument` end-to-end: validate, upload to
storage, transactionally create Document + ProcessingJob, dispatch to the
worker. A dispatch failure is surfaced by throwing `GrpcDispatchException`
after the response DTO was built, so the client receives the exception's
202 body and the built DTO is discarded; the transactional rows stay.
`storageKey`, `freshDocumentId`, `freshJobId` and `now` stand for the
storage key and identifiers/instant the collaborators assign. -/
def uploadDocument (file : Option MulterFile) (dtoTitle : Option String)
    (userId : String) (store : GatewayStore) (sc : UploadScenario)
    (maxFileSizeBytes : Nat) (storageKey freshDocumentId freshJobId : String)
    (now : Nat) : HttpOutcome × GatewayStore :=
  match validateFile file maxFileSizeBytes with
  | .error e => ({ status := uploadErrorStatus e, body := .errorBody (uploadErrorBody e) }, store)
  | .ok _ =>
    match file with
    | none =>
        -- unreachable: validateFile rejects an absent file
        ({ status := 400, body := .errorBody (uploadErrorBody .missingFile) }, store)
    | some f =>
      if sc.storageFails then
        ({ status := 502, body := .errorBody (uploadErrorBody .storageUpload) }, store)
      else
        let fileUrl := storageKey
        let title := uploadTitle dtoTitle f.originalname
        if sc.transactionFails then
          ({ status := 500, body := .errorBody (uploadErrorBody .documentCreation) }, store)
        else
          let document : Document :=
            { id := freshDocumentId, ownerId := userId, title := title
              fileUrl := fileUrl, mimeType := f.mimetype
              fileSize := toString f.size, status := .uploaded
              pageCount := none, createdAt := now }
          let job : ProcessingJob :=
            { id := freshJobId, documentId := freshDocumentId, status := .pending
              progress := 0, errorMessage := none, startedAt := none
              completedAt := none, createdAt := now }
          let store₁ : GatewayStore :=
            { documents := store.documents ++ [document], jobs := store.jobs ++ [job] }
          let response : UploadResponseBody :=
            { documentId := document.id, jobId := job.id, status := job.status
              title := document.title, fileUrl := document.fileUrl
              fileSizeBytes := document.fileSize.toNat?.getD 0
              mimeType := document.mimeType, createdAt := document.createdAt }
          if sc.grpcDispatchFails then
            ({ status := 202
               body := .errorBody (uploadErrorBody (.grpcDispatch document.id)) }, store₁)
          else
            ({ status := 201, body := .uploadBody response }, store₁)

/-! ## Progress stream bridge (`ProgressController` / `ProgressSseService`)

An Express/Node response: once `flushHeaders()` runs, the status code and
headers are on the wire and can no longer change; a later
`res.status(404).json(...)` only mutates the local `statusCode` field and
`json` throws `ERR_HTTP_HEADERS_SENT` instead of delivering its body. -/

/-- Express response model. `wireStatus`/`wireHeaders` are what was sent
to the client when the headers went out; `jsonDelivered` holds a JSON
body only if `res.json` actually delivered one. -/
structure HttpResponseModel where
  statusCode : Nat
  headers : List (String × String)
  headersSent : Bool
  wireStatus : Option Nat
  wireHeaders : List (String × String)
  chunks : List String
  jsonDelivered : Option ErrorBody
  ended : Bool
deriving DecidableEq, Repr

/-- A fresh Express response: status 200, nothing sent. -/
def freshResponse : HttpResponseModel :=
  { statusCode := 200, headers := [], headersSent := false, wireStatus := none
    wireHeaders := [], chunks := [], jsonDelivered := none, ended := false }

/-- `res.setHeader(name, value)`; after the headers were sent Node throws,
which never happens on the modelled paths (all `setHeader` calls precede
the flush). -/
def setHeader (res : HttpResponseModel) (name value : String) : HttpResponseModel :=
  if res.headersSent then res
  else { res with headers := res.headers ++ [(name, value)] }

/-- `res.flushHeaders()`: sends the current status code and headers. -/
def flushHeaders (res : HttpResponseModel) : HttpResponseModel :=
  if res.headersSent then res
  else { res with headersSent := true, wireStatus := some res.statusCode,
                  wireHeaders := res.headers }

/-- `res.status(code)`: only mutates the local status-code field. -/
def setStatus (res : HttpResponseModel) (code : Nat) : HttpResponseModel :=
  { res with statusCode := code }

/-- `res.json(body)`: delivers a JSON response, or throws
`ERR_HTTP_HEADERS_SENT` when the headers already went out. -/
inductive SendError
  | headersAlreadySent
deriving DecidableEq, Repr

def jsonSend (res : HttpResponseModel) (body : ErrorBody) :
    Except SendError HttpResponseModel :=
  if res.headersSent then
    .error .headersAlreadySent
  else
    .ok { res with headersSent := true, wireStatus := some res.statusCode,
                   wireHeaders := res.headers ++ [("Content-Type", "application/json")],
                   jsonDelivered := some body, ended := true }

/-- `res.write(chunk)`. -/
def resWrite (res : HttpResponseModel) (chunk : String) : HttpResponseModel :=
  { res with chunks := res.chunks ++ [chunk] }

/-- `res.end()`. -/
def resEnd (res : HttpResponseModel) : HttpResponseModel :=
  { res with ended := true }

/-- Timing constants of the SSE service. -/
def HEARTBEAT_INTERVAL_MS : Nat := 25000
def MAX_STREAM_LIFETIME_MS : Nat := 5 * 60 * 1000
def SSE_RETRY_MS : Nat := 3000

/-- Per-connection mutable state of the SSE service (`StreamContext`),
restricted to the parts the pure embedding tracks: the event counter and
the single-shot closed flag. -/
structure StreamContext where
  eventCounter : Nat
  closed : Bool
deriving DecidableEq, Repr

/-- `writeSseFrame(ctx, eventName, payload)` — writes
`id: {counter}\nevent: {name}\ndata: {json}\n\n` after bumping the
counter, unless the context is closed. `data` stands for
`JSON.stringify(payload)`. -/
def writeSseFrame (ctx : StreamContext) (res : HttpResponseModel)
    (eventName data : String) : StreamContext × HttpResponseModel :=
  if ctx.closed then (ctx, res)
  else
    let id := ctx.eventCounter + 1
    ({ ctx with eventCounter := id },
     resWrite res ("id: " ++ toString id ++ "\nevent: " ++ eventName ++
       "\ndata: " ++ data ++ "\n\n"))

/-- The heartbeat comment frame. -/
def HEARTBEAT_FRAME : String := ": heartbeat\n\n"

/-- `writeHeartbeat(ctx)` — writes the bare comment frame, bypassing the
counter. -/
def writeHeartbeat (ctx : StreamContext) (res : HttpResponseModel) :
    StreamContext × HttpResponseModel :=
  if ctx.closed then (ctx, res)
  else (ctx, resWrite res HEARTBEAT_FRAME)

/-- One write the connection performs over its lifetime: an event frame
(from the snapshot, a progress event, the timeout frame or the error
frame) or a heartbeat tick. -/
inductive SseWriteCmd
  | frame (eventName data : String)
  | heartbeat
deriving DecidableEq, Repr

/-- Run a sequence of writes over one connection's context. -/
def runSseWrites (ctx : StreamContext) (res : HttpResponseModel) :
    List SseWriteCmd → StreamContext × HttpResponseModel
  | [] => (ctx, res)
  | .frame name data :: rest =>
      let step := writeSseFrame ctx res name data
      runSseWrites step.1 step.2 rest
  | .heartbeat :: rest =>
      let step := writeHeartbeat ctx res
      runSseWrites step.1 step.2 rest

/-- A frame rendered as the wire format of §4.5.2. -/
def sseFrameString (id : Nat) (eventName data : String) : String :=
  "id: " ++ toString id ++ "\nevent: " ++ eventName ++ "\ndata: " ++ data ++ "\n\n"

/-- Rendering of a connection's writes as the specification words it:
event frames carry ids `next, next+1, …` counting event frames only,
heartbeats are the bare comment frame and do not advance the counter. -/
def specFrames : Nat → List SseWriteCmd → List String
  | _, [] => []
  | next, .frame name data :: rest => sseFrameString next name data :: specFrames (next + 1) rest
  | next, .heartbeat :: rest => HEARTBEAT_FRAME :: specFrames next rest

/-- Number of event frames (non-heartbeats) in a write sequence. -/
def countFrames : List SseWriteCmd → Nat
  | [] => 0
  | .frame _ _ :: rest => countFrames rest + 1
  | .heartbeat :: rest => countFrames rest

/-- `job.status.toUpperCase()` for the snapshot `stage`. -/
def statusUpper : ProcessingJobStatus → String
  | .pending => "PENDING"
  | .running => "RUNNING"
  | .completed => "COMPLETED"
  | .failed => "FAILED"

/-- `statusToMessage(job)` of the SSE service. -/
def statusToMessage (jb : ProcessingJob) : String :=
  match jb.status with
  | .pending => "Job is queued for processing"
  | .running => "Processing in progress — " ++ toString jb.progress ++ "% complete"
  | .completed => "Processing completed successfully"
  | .failed => jb.errorMessage.getD "Processing failed"

/-- The snapshot frame's `data` JSON, assembled from the stored row
(field order as in `jobToPayload`). -/
def snapshotData (jb : ProcessingJob) : String :=
  "\x7b\"jobId\":\"" ++ jb.id ++ "\",\"documentId\":\"" ++ jb.documentId ++
    "\",\"percent\":" ++ toString jb.progress ++ ",\"stage\":\"" ++ statusUpper jb.status ++
    "\",\"message\":\"" ++ statusToMessage jb ++ "\",\"currentPage\":0,\"totalPages\":0\x7d"

/-- `isTerminal(status)` of the SSE service. -/
def isTerminal (status : ProcessingJobStatus) : Bool :=
  status == .completed || status == .failed

/-- `findJob` of the SSE service
(`jobRepository.findOne({ where: { id: jobId } })`). -/
def findJobInStore (jobs : List ProcessingJob) (jobId : String) : Option ProcessingJob :=
  jobs.find? fun jb => jb.id == jobId

/-- The SSE headers the controller sets before flushing. -/
def SSE_HEADERS : List (String × String) :=
  [("Content-Type", "text/event-stream"), ("Cache-Control", "no-cache"),
   ("Connection", "keep-alive"), ("X-Accel-Buffering", "no"),
   ("Access-Control-Allow-Origin", "*")]

/-- `ProgressSseService.streamProgress(jobId, res)` up to its first
suspension on the live subscription: validate existence (404 JSON on a
missing job), write the retry directive, write the snapshot frame, and
end immediately when the snapshot is terminal. The live Redis-driven
frame traffic that follows on a non-terminal job is modelled by
`runSseWrites`. -/
def serviceStreamProgress (jobId : String) (jobs : List ProcessingJob)
    (res : HttpResponseModel) : HttpResponseModel × Bool :=
  match findJobInStore jobs jobId with
  | none =>
    let res₁ := setStatus res 404
    match jsonSend res₁
        { statusCode := 404, message := "Processing job " ++ jobId ++ " not found"
          error := "Not Found" } with
    | .ok res₂ => (res₂, false)
    | .error _ => (res₁, false)
  | some jb =>
    let res₁ := resWrite res ("retry: " ++ toString SSE_RETRY_MS ++ "\n\n")
    let ctx : StreamContext :=
      { eventCounter := 0, closed := false }
    let step := writeSseFrame ctx res₁ "progress" (snapshotData jb)
    if isTerminal jb.status then
      (resEnd step.2, true)
    else
      (step.2, true)

/-- `ProgressController.streamProgress`: sets the SSE headers, flushes
them, then hands the response to the service. Returns the response as the
client observes it. -/
def controllerStreamProgress (jobId : String) (jobs : List ProcessingJob) :
    HttpResponseModel :=
  let res₀ := SSE_HEADERS.foldl (fun r h => setHeader r h.1 h.2) freshResponse
  let res₁ := flushHeaders res₀
  (serviceStreamProgress jobId jobs res₁).1

/-! ## Concrete example stores and rows used by witnesses -/

/-- A worker store with document `d1` owned by `u1` and a RUNNING job
`r1`. -/
def runningStoreExample : WorkerStore :=
  { documents := [{ id := "d1", ownerId := "u1", title := "T", fileUrl := "k"
                    mimeType := "application/pdf", fileSize := "10"
                    status := .processing, pageCount := none, createdAt := 1 }]
    jobs := [{ id := "r1", documentId := "d1", status := .running, progress := 50
               errorMessage := none, startedAt := some 2, completedAt := none
               createdAt := 3 }] }

/-- A worker store with document `d1` owned by `u1` and no jobs yet. -/
def noJobStoreExample : WorkerStore :=
  { documents := [{ id := "d1", ownerId := "u1", title := "T", fileUrl := "k"
                    mimeType := "application/pdf", fileSize := "10"
                    status := .uploaded, pageCount := none, createdAt := 1 }]
    jobs := [] }

/-- The Document row committed by `createDocumentWithJob` for a validated
file. -/
def uploadedDocumentRecord (f : MulterFile) (dtoTitle : Option String)
    (userId storageKey freshDocumentId : String) (now : Nat) : Document :=
  { id := freshDocumentId, ownerId := userId
    title := uploadTitle dtoTitle f.originalname
    fileUrl := storageKey, mimeType := f.mimetype, fileSize := toString f.size
    status := .uploaded, pageCount := none, createdAt := now }

/-- The ProcessingJob row committed by `createDocumentWithJob`. -/
def uploadedJobRecord (freshDocumentId freshJobId : String) (now : Nat) : ProcessingJob :=
  { id := freshJobId, documentId := freshDocumentId, status := .pending
    progress := 0, errorMessage := none, startedAt := none
    completedAt := none, createdAt := now }

/-! ## Helper lemmas about the worker trace -/

/-- The page loop always writes a page's progress before publishing that
page's event, so the publish-coverage check succeeds on its action list
whatever writes were accumulated before it. -/
theorem pageLoop_ordCheck (sc : WorkerScenario) (jobId documentId : String) :
    ∀ fuel page w, 1 ≤ page →
      ordCheck (pageLoop sc jobId documentId fuel page).1 w = true := by
  intro fuel
  induction fuel with
  | zero => intro page w _; simp [pageLoop, ordCheck]
  | succ k ih =>
    intro page w hpage
    by_cases hs : sc.failPoint = .atPageSleep page
    · simp [pageLoop, hs, ordCheck]
    · by_cases hw : sc.failPoint = .atPageWrite page
      · simp [pageLoop, hs, hw, ordCheck]
      · have hcov :
            writeCovers (pageEvent jobId documentId page) (JobPatch.pageUpdate page, true)
              = true := by
          have hne : page ≠ 0 := by omega
          simp [writeCovers, eventPatch, pageEvent, hne]
        simp only [pageLoop, hs, hw, if_false, ordCheck, List.any_cons, hcov,
          Bool.true_or, Bool.true_and]
        exact ih (page + 1) ((JobPatch.pageUpdate page, true) :: w) (by omega)

/-- The catch block persists (attempts) the FAILED transition before the
FAILED event is published, so the coverage check succeeds on it. -/
theorem catchTrace_ordCheck (sc : WorkerScenario) (jobId documentId : String)
    (w : List (JobPatch × Bool)) :
    ordCheck (catchTrace sc jobId documentId) w = true := by
  simp [catchTrace, ordCheck, writeCovers, eventPatch, failedEvent]

/-- `writesOf` on a cons of a durable write. -/
theorem writesOf_cons_dbWrite (p : JobPatch) (ok : Bool) (l : List WorkerAction) :
    writesOf (.dbWrite p ok :: l) = (p, ok) :: writesOf l := by
  simp [writesOf]

/-- `writesOf` on a cons of a publish. -/
theorem writesOf_cons_publish (e : ProgressEvent) (l : List WorkerAction) :
    writesOf (.publish e :: l) = writesOf l := by
  simp [writesOf]

/-- `ordCheck` over an append: check the first part, then the second with
the first part's writes accumulated. -/
theorem ordCheck_append (l₁ l₂ : List WorkerAction) (w : List (JobPatch × Bool)) :
    ordCheck (l₁ ++ l₂) w =
      (ordCheck l₁ w && ordCheck l₂ ((writesOf l₁).reverse ++ w)) := by
  induction l₁ generalizing w with
  | nil => simp [ordCheck, writesOf]
  | cons a rest ih =>
    cases a with
    | dbWrite p ok =>
      simp only [List.cons_append, ordCheck, writesOf_cons_dbWrite,
        List.reverse_cons, List.append_assoc, List.singleton_append, List.append_eq]
      simpa using ih ((p, ok) :: w)
    | publish e =>
      simp only [List.cons_append, ordCheck, writesOf_cons_publish, List.append_eq]
      rw [ih]
      simp [Bool.and_assoc]

/-- A positive `ordCheck` means: at every decomposition of the trace
around a publish, the earlier actions (or the initial accumulator)
contain a covering durable write. -/
theorem ordCheck_split (l : List WorkerAction) (w : List (JobPatch × Bool))
    (h : ordCheck l w = true) :
    ∀ l₁ e l₂, l = l₁ ++ .publish e :: l₂ →
      ((writesOf l₁).any (writeCovers e) || w.any (writeCovers e)) = true := by
  intro l₁
  induction l₁ generalizing l w with
  | nil =>
    intro e l₂ hl
    subst hl
    simp only [List.nil_append, ordCheck, Bool.and_eq_true] at h
    simp [writesOf, h.1]
  | cons a rest ih =>
    intro e l₂ hl
    subst hl
    cases a with
    | dbWrite p ok =>
      simp only [List.cons_append, ordCheck] at h
      have := ih _ _ h e l₂ rfl
      simp only [writesOf, List.filterMap_cons] at this ⊢
      simp only [List.any_cons] at this
      rcases Bool.or_eq_true_iff.mp this with h' | h'
      · simp [h']
      · rcases Bool.or_eq_true_iff.mp h' with h'' | h''
        · simp [h'']
        · simp [h'']
    | publish e' =>
      simp only [List.cons_append, ordCheck, Bool.and_eq_true] at h
      have := ih _ _ h.2 e l₂ rfl
      simpa [writesOf, List.filterMap_cons] using this

/-- The full coverage check holds on every `startProcessing` trace. -/
theorem startProcessingTrace_ordCheck (jobId documentId : String)
    (sc : WorkerScenario) :
    ordCheck (startProcessingTrace jobId documentId sc) [] = true := by
  by_cases hr : sc.failPoint = .atRunningWrite
  · simp only [startProcessingTrace, hr, if_true, ordCheck]
    exact catchTrace_ordCheck ..
  · have hpages : ∀ w, ordCheck (pageLoop sc jobId documentId SIMULATED_PAGE_COUNT 1).1 w
        = true := fun w => pageLoop_ordCheck sc jobId documentId _ 1 w (by omega)
    by_cases hfail : (pageLoop sc jobId documentId SIMULATED_PAGE_COUNT 1).2 <;>
      by_cases hc : sc.failPoint = .atCompletedWrite <;>
      by_cases hd : sc.failPoint = .atDocumentWrite <;>
      simp only [startProcessingTrace, hr, hfail, hc, hd, if_true, if_false,
        Bool.false_eq_true, ordCheck_append] <;>
      simp [ordCheck, ordCheck_append, writeCovers, eventPatch, startEvent,
        completedEvent, failedEvent, catchTrace, hpages, writesOf]

/-- `publishedEventsOk` distributes over append. -/
theorem publishedEventsOk_append (l₁ l₂ : List WorkerAction) :
    publishedEventsOk (l₁ ++ l₂) = (publishedEventsOk l₁ && publishedEventsOk l₂) := by
  simp [publishedEventsOk, List.all_append]

/-- `publishedEventsOk` on the empty trace. -/
theorem publishedEventsOk_nil : publishedEventsOk [] = true := rfl

/-- `publishedEventsOk` ignores durable writes. -/
theorem publishedEventsOk_cons_dbWrite (p : JobPatch) (ok : Bool) (l : List WorkerAction) :
    publishedEventsOk (.dbWrite p ok :: l) = publishedEventsOk l := by
  simp [publishedEventsOk]

/-- `publishedEventsOk` checks the head event on a publish. -/
theorem publishedEventsOk_cons_publish (e : ProgressEvent) (l : List WorkerAction) :
    publishedEventsOk (.publish e :: l) = (eventWithinBounds e && publishedEventsOk l) := by
  simp [publishedEventsOk]

/-- The per-page reported progress never exceeds 99 for a page within the
simulated document. -/
theorem pageProgress_le (page : Nat) (h : page ≤ 12) : pageProgress page ≤ 99 := by
  have h1 : 2 * (page * 95) + SIMULATED_PAGE_COUNT ≤ 2292 := by
    simp only [SIMULATED_PAGE_COUNT]; omega
  have h3 : pageProgress page ≤ 2292 / (2 * SIMULATED_PAGE_COUNT) :=
    Nat.div_le_div_right h1
  exact le_trans h3 (by norm_num [SIMULATED_PAGE_COUNT])

/-- Every event emitted by the page loop is a RUNNING event whose
progress stays within the bound. -/
theorem pageLoop_eventsOk (sc : WorkerScenario) (jobId documentId : String) :
    ∀ fuel page, page + fuel ≤ 13 →
      publishedEventsOk (pageLoop sc jobId documentId fuel page).1 = true := by
  intro fuel
  induction fuel with
  | zero => intro page _; simp [pageLoop, publishedEventsOk]
  | succ k ih =>
    intro page hpage
    by_cases hs : sc.failPoint = .atPageSleep page
    · simp [pageLoop, hs, publishedEventsOk]
    · by_cases hw : sc.failPoint = .atPageWrite page
      · simp [pageLoop, hs, hw, publishedEventsOk]
      · have hb : eventWithinBounds (pageEvent jobId documentId page) = true := by
          have hle : pageProgress page ≤ 99 := pageProgress_le page (by omega)
          simp [eventWithinBounds, pageEvent, hle]

        simp only [pageLoop, hs, hw, if_false, publishedEventsOk, List.all_cons, hb,
          Bool.true_and]
        exact ih (page + 1) (by omega)

/-- All events published by any `startProcessing` execution satisfy the
progress bounds. -/
theorem startProcessingTrace_eventsOk (jobId documentId : String)
    (sc : WorkerScenario) :
    publishedEventsOk (startProcessingTrace jobId documentId sc) = true := by
  have hpages :
      publishedEventsOk (pageLoop sc jobId documentId SIMULATED_PAGE_COUNT 1).1 = true :=
    pageLoop_eventsOk sc jobId documentId SIMULATED_PAGE_COUNT 1
      (by simp [SIMULATED_PAGE_COUNT])
  by_cases hr : sc.failPoint = .atRunningWrite
  · simp [startProcessingTrace, hr, publishedEventsOk, catchTrace, eventWithinBounds,
      failedEvent]
  · by_cases hfail : (pageLoop sc jobId documentId SIMULATED_PAGE_COUNT 1).2 <;>
      by_cases hc : sc.failPoint = .atCompletedWrite <;>
      by_cases hd : sc.failPoint = .atDocumentWrite <;>
      simp only [startProcessingTrace, hr, hfail, hc, hd, if_true, if_false,
        Bool.false_eq_true, publishedEventsOk_append] <;>
      simp [publishedEventsOk_append, publishedEventsOk_nil,
        publishedEventsOk_cons_dbWrite, publishedEventsOk_cons_publish, catchTrace,
        eventWithinBounds, startEvent, completedEvent, failedEvent, hpages]

/-! ## Claims C3, C4, C5 -/

/-- C3: in every execution of the worker task `startProcessing`, each
publish of a `ProgressEvent` to `doc:{jobId}:progress` is preceded in the
action trace by the corresponding durable write — the RUNNING transition
before the initial event, the page-`p` progress update before the page-`p`
event, the COMPLETED transition before the COMPLETED event, and the
FAILED persist attempt before the FAILED event (a successful write except
in the scenario where the store rejects the failure persist itself, which
the source's catch block tolerates). -/
theorem worker_publish_preceded_by_durable_write
    (jobId documentId : String) (sc : WorkerScenario) :
    ordCheck (startProcessingTrace jobId documentId sc) [] = true ∧
    ∀ l₁ e l₂,
      startProcessingTrace jobId documentId sc = l₁ ++ .publish e :: l₂ →
      (writesOf l₁).any (writeCovers e) = true := by
  refine ⟨startProcessingTrace_ordCheck jobId documentId sc, ?_⟩
  intro l₁ e l₂ hsplit
  have h := ordCheck_split _ _ (startProcessingTrace_ordCheck jobId documentId sc)
    l₁ e l₂ hsplit
  simpa using h

/-- Witness for C3: in the successful execution, the initial RUNNING
event at position 1 of the trace is covered by the RUNNING transition
written at position 0. -/
theorem worker_publish_preceded_by_durable_write_witness :
    (writesOf [WorkerAction.dbWrite .runningTransition true]).any
      (writeCovers (startEvent "job-1" "doc-1")) = true :=
  (worker_publish_preceded_by_durable_write "job-1" "doc-1"
      { failPoint := .noFailure, failedPersistOk := true }).2
    [WorkerAction.dbWrite .runningTransition true] (startEvent "job-1" "doc-1")
    ((startProcessingTrace "job-1" "doc-1"
      { failPoint := .noFailure, failedPersistOk := true }).drop 2) rfl

/-- C4: every `ProgressEvent` published by `startProcessing` satisfies:
status RUNNING implies progress lies in [0, 99], and status COMPLETED
implies progress equals 100. -/
theorem worker_event_progress_bounds
    (jobId documentId : String) (sc : WorkerScenario) (e : ProgressEvent)
    (hmem : WorkerAction.publish e ∈ startProcessingTrace jobId documentId sc) :
    (e.status = .RUNNING → 0 ≤ e.progress ∧ e.progress ≤ 99) ∧
    (e.status = .COMPLETED → e.progress = 100) := by
  have hall := startProcessingTrace_eventsOk jobId documentId sc
  have hb : eventWithinBounds e = true := by
    have h := List.all_eq_true.mp (by simpa [publishedEventsOk] using hall)
      (WorkerAction.publish e) hmem
    simpa using h
  constructor
  · intro hs
    refine ⟨Nat.zero_le _, ?_⟩
    simp [eventWithinBounds, hs] at hb
    exact hb
  · intro hs
    simp [eventWithinBounds, hs] at hb
    exact hb

/-- Witness for C4: the page-6 event of a successful run is RUNNING with
progress within [0, 99], and the completion event carries progress 100. -/
theorem worker_event_progress_bounds_witness :
    (0 ≤ (pageEvent "job-1" "doc-1" 6).progress ∧
      (pageEvent "job-1" "doc-1" 6).progress ≤ 99) ∧
    (completedEvent "job-1" "doc-1").progress = 100 :=
  ⟨(worker_event_progress_bounds "job-1" "doc-1"
      { failPoint := .noFailure, failedPersistOk := true }
      (pageEvent "job-1" "doc-1" 6) (by decide)).1 rfl,
   (worker_event_progress_bounds "job-1" "doc-1"
      { failPoint := .noFailure, failedPersistOk := true }
      (completedEvent "job-1" "doc-1") (by decide)).2 rfl⟩

/-- C5: a successful run over the simulated 12 pages reports per-page
progress `round(p × 95 / 12)`, so the published progress values are
exactly 0, 8, 16, 24, 32, 40, 48, 55, 63, 71, 79, 87, 95, 100 in that
order, a strictly increasing sequence. -/
theorem worker_success_progress_sequence (jobId documentId : String) (fp : Bool) :
    publishedProgressList
        (startProcessingTrace jobId documentId
          { failPoint := .noFailure, failedPersistOk := fp })
      = [0, 8, 16, 24, 32, 40, 48, 55, 63, 71, 79, 87, 95, 100] ∧
    (∀ page, (pageEvent jobId documentId page).progress
      = jsRound (page * 95) SIMULATED_PAGE_COUNT) ∧
    List.Chain' (· < ·)
      (publishedProgressList
        (startProcessingTrace jobId documentId
          { failPoint := .noFailure, failedPersistOk := fp })) := by
  have h : publishedProgressList
      (startProcessingTrace jobId documentId
        { failPoint := .noFailure, failedPersistOk := fp })
      = [0, 8, 16, 24, 32, 40, 48, 55, 63, 71, 79, 87, 95, 100] := rfl
  refine ⟨h, fun page => rfl, ?_⟩
  rw [h]
  norm_num [List.chain'_cons]

/-! ## Claims C6 and C10 -/

/-- C6: while a RUNNING job exists for a document, `processDocument`
returns that job's id, status and acceptedAt timestamp without touching
the store, and any second call on the resulting store returns the same
response — in particular the same `jobId`. -/
theorem worker_running_job_idempotent
    (documentId userId : String) (s : WorkerStore) (sc : WorkerDbScenario)
    (freshJobId : String) (now : Nat) (doc : Document) (existing : ProcessingJob)
    (hdocId : documentId ≠ "") (huser : userId ≠ "")
    (hdoc : findDocumentOwned s documentId userId = some doc)
    (hrun : findRunningJob s documentId = some existing) :
    processDocument documentId userId s sc freshJobId now
      = (.ok { jobId := existing.id, status := existing.status,
               acceptedAt := toGrpcTimestamp existing.createdAt }, s) ∧
    ∀ sc₂ freshJobId₂ now₂,
      processDocument documentId userId
          (processDocument documentId userId s sc freshJobId now).2 sc₂ freshJobId₂ now₂
        = (.ok { jobId := existing.id, status := existing.status,
                 acceptedAt := toGrpcTimestamp existing.createdAt }, s) := by
  have h1 : processDocument documentId userId s sc freshJobId now
      = (.ok { jobId := existing.id, status := existing.status,
               acceptedAt := toGrpcTimestamp existing.createdAt }, s) := by
    simp [processDocument, hdocId, huser, hdoc, hrun]
  refine ⟨h1, fun sc₂ freshJobId₂ now₂ => ?_⟩
  rw [h1]
  simp [processDocument, hdocId, huser, hdoc, hrun]

/-- Witness for C6: two concrete calls while `r1` is RUNNING both return
`r1` and leave the store unchanged. -/
theorem worker_running_job_idempotent_witness :
    processDocument "d1" "u1" runningStoreExample
        { jobSaveFails := false, documentUpdateFails := false } "fresh-1" 5
      = (.ok { jobId := "r1", status := .running, acceptedAt := toGrpcTimestamp 3 },
         runningStoreExample) ∧
    processDocument "d1" "u1"
        (processDocument "d1" "u1" runningStoreExample
          { jobSaveFails := false, documentUpdateFails := false } "fresh-1" 5).2
        { jobSaveFails := false, documentUpdateFails := false } "fresh-2" 6
      = (.ok { jobId := "r1", status := .running, acceptedAt := toGrpcTimestamp 3 },
         runningStoreExample) := by
  have h := worker_running_job_idempotent "d1" "u1" runningStoreExample
    { jobSaveFails := false, documentUpdateFails := false } "fresh-1" 5
    (runningStoreExample.documents.head (by decide))
    (runningStoreExample.jobs.head (by decide))
    (by decide) (by decide) (by decide) (by decide)
  exact ⟨h.1, h.2 { jobSaveFails := false, documentUpdateFails := false } "fresh-2" 6⟩

/-- C10: with no RUNNING job present, a `processDocument` call whose
document-status update fails after the job row was saved returns the
`internal` RPC error, yet the freshly created PENDING job row stays in
the store (no transaction, no rollback) and the document row is left
untouched. -/
theorem worker_job_row_survives_document_update_failure
    (documentId userId : String) (s : WorkerStore) (freshJobId : String) (now : Nat)
    (doc : Document)
    (hdocId : documentId ≠ "") (huser : userId ≠ "")
    (hdoc : findDocumentOwned s documentId userId = some doc)
    (hrun : findRunningJob s documentId = none) :
    processDocument documentId userId s
        { jobSaveFails := false, documentUpdateFails := true } freshJobId now
      = (.error .internal,
         { s with jobs := s.jobs ++
            [{ id := freshJobId, documentId := documentId, status := .pending,
               progress := 0, errorMessage := none, startedAt := none,
               completedAt := none, createdAt := now }] }) := by
  simp [processDocument, hdocId, huser, hdoc, hrun]

/-- Witness for C10: the concrete failing call errors with `internal` but
leaves the PENDING row `fresh-1` in the store. -/
theorem worker_job_row_survives_document_update_failure_witness :
    processDocument "d1" "u1" noJobStoreExample
        { jobSaveFails := false, documentUpdateFails := true } "fresh-1" 7
      = (.error .internal,
         { noJobStoreExample with jobs := noJobStoreExample.jobs ++
            [{ id := "fresh-1", documentId := "d1", status := .pending,
               progress := 0, errorMessage := none, startedAt := none,
               completedAt := none, createdAt := 7 }] }) :=
  worker_job_row_survives_document_update_failure "d1" "u1" noJobStoreExample
    "fresh-1" 7 (noJobStoreExample.documents.head (by decide))
    (by decide) (by decide) (by decide) (by decide)

/-! ## Claim C7 -/

/-- C7: upload validation rejects a missing or zero-byte file with the
400 `missing_file` error; a file whose MIME type is outside the allowlist
with the 415 error whose message ends with the allowed list; a file
larger than the configured limit with the 413 error; and accepts a file
passing all three checks. -/
theorem upload_validation_spec :
    (∀ maxBytes, validateFile none maxBytes = .error .missingFile) ∧
    uploadErrorStatus .missingFile = 400 ∧
    (∀ f maxBytes, f.size = 0 →
      validateFile (some f) maxBytes = .error .missingFile) ∧
    (∀ f maxBytes, f.hasBuffer = true → f.size ≠ 0 →
      ALLOWED_MIME_TYPES.contains f.mimetype = false →
      validateFile (some f) maxBytes = .error (.invalidMimeType f.mimetype) ∧
      uploadErrorStatus (.invalidMimeType f.mimetype) = 415 ∧
      ∃ s₁, (uploadErrorBody (.invalidMimeType f.mimetype)).message
        = s₁ ++ allowedTypesJoined) ∧
    (∀ f maxBytes, f.hasBuffer = true →
      ALLOWED_MIME_TYPES.contains f.mimetype = true → maxBytes < f.size →
      validateFile (some f) maxBytes
        = .error (.fileTooLarge (maxBytes / BYTES_PER_MB)) ∧
      uploadErrorStatus (.fileTooLarge (maxBytes / BYTES_PER_MB)) = 413) ∧
    (∀ f maxBytes, f.hasBuffer = true → f.size ≠ 0 →
      ALLOWED_MIME_TYPES.contains f.mimetype = true → f.size ≤ maxBytes →
      validateFile (some f) maxBytes = .ok ()) := by
  refine ⟨fun maxBytes => rfl, rfl, ?_, ?_, ?_, ?_⟩
  · intro f maxBytes hz
    simp [validateFile, hz]
  · intro f maxBytes hb hz hm
    have hm' : ¬ f.mimetype ∈ ALLOWED_MIME_TYPES := by simpa using hm
    refine ⟨?_, rfl, ("File type \"" ++ f.mimetype) ++ "\" is not supported. Allowed types: ", rfl⟩
    simp [validateFile, hb, hz, hm']
  · intro f maxBytes hb hm hlt
    have hz : f.size ≠ 0 := by omega
    have hm' : f.mimetype ∈ ALLOWED_MIME_TYPES := by simpa using hm
    refine ⟨?_, rfl⟩
    simp [validateFile, hb, hz, hm', hlt]
  · intro f maxBytes hb hz hm hle
    have hm' : f.mimetype ∈ ALLOWED_MIME_TYPES := by simpa using hm
    have hnotlt : ¬ maxBytes < f.size := by omega
    simp [validateFile, hb, hz, hm', hnotlt]

/-- Witness for C7: concrete files hitting each branch at limit 1000
bytes — absent file, zero-byte file, `text/plain` file, a file of
limit + 1 bytes, and an accepted PDF of exactly the limit. -/
theorem upload_validation_spec_witness :
    validateFile none 1000 = .error .missingFile ∧
    validateFile (some { originalname := "a.pdf", mimetype := "application/pdf"
                         size := 0, hasBuffer := true }) 1000 = .error .missingFile ∧
    (validateFile (some { originalname := "n.txt", mimetype := "text/plain"
                          size := 1, hasBuffer := true }) 1000
        = .error (.invalidMimeType "text/plain") ∧
      uploadErrorStatus (.invalidMimeType "text/plain") = 415 ∧
      ∃ s₁, (uploadErrorBody (.invalidMimeType "text/plain")).message
        = s₁ ++ allowedTypesJoined) ∧
    (validateFile (some { originalname := "big.pdf", mimetype := "application/pdf"
                          size := 1001, hasBuffer := true }) 1000
        = .error (.fileTooLarge (1000 / BYTES_PER_MB)) ∧
      uploadErrorStatus (.fileTooLarge (1000 / BYTES_PER_MB)) = 413) ∧
    validateFile (some { originalname := "ok.pdf", mimetype := "application/pdf"
                         size := 1000, hasBuffer := true }) 1000 = .ok () := by
  obtain ⟨h1, _, h3, h4, h5, h6⟩ := upload_validation_spec
  exact ⟨h1 1000, h3 _ 1000 rfl,
    h4 _ 1000 rfl (by decide) (by decide),
    h5 _ 1000 rfl (by decide) (by decide),
    h6 _ 1000 rfl (by decide) (by decide) (by decide)⟩

/-! ## Claims C1 and C8 -/

/-- C1 counterexample: on a fully valid upload whose worker dispatch
fails, the response status is 202 but the body is the
`GrpcDispatchException` body, not the success body — it is not an upload
DTO at all and differs from the body of the identical upload whose
dispatch succeeds. -/
theorem upload_dispatch_failure_counterexample :
    (uploadDocument
        (some { originalname := "report.pdf", mimetype := "application/pdf"
                size := 1048576, hasBuffer := true })
        (some "Roadmap") "u1" { documents := [], jobs := [] }
        { storageFails := false, transactionFails := false, grpcDispatchFails := true }
        (50 * BYTES_PER_MB) "2024/abc-report.pdf" "doc-1" "job-1" 0).1.status = 202 ∧
    (uploadDocument
        (some { originalname := "report.pdf", mimetype := "application/pdf"
                size := 1048576, hasBuffer := true })
        (some "Roadmap") "u1" { documents := [], jobs := [] }
        { storageFails := false, transactionFails := false, grpcDispatchFails := true }
        (50 * BYTES_PER_MB) "2024/abc-report.pdf" "doc-1" "job-1" 0).1.body.isUploadBody
      = false ∧
    (uploadDocument
        (some { originalname := "report.pdf", mimetype := "application/pdf"
                size := 1048576, hasBuffer := true })
        (some "Roadmap") "u1" { documents := [], jobs := [] }
        { storageFails := false, transactionFails := false, grpcDispatchFails := false }
        (50 * BYTES_PER_MB) "2024/abc-report.pdf" "doc-1" "job-1" 0).1.body.isUploadBody
      = true ∧
    (uploadDocument
        (some { originalname := "report.pdf", mimetype := "application/pdf"
                size := 1048576, hasBuffer := true })
        (some "Roadmap") "u1" { documents := [], jobs := [] }
        { storageFails := false, transactionFails := false, grpcDispatchFails := true }
        (50 * BYTES_PER_MB) "2024/abc-report.pdf" "doc-1" "job-1" 0).1.body
      ≠ (uploadDocument
        (some { originalname := "report.pdf", mimetype := "application/pdf"
                size := 1048576, hasBuffer := true })
        (some "Roadmap") "u1" { documents := [], jobs := [] }
        { storageFails := false, transactionFails := false, grpcDispatchFails := false }
        (50 * BYTES_PER_MB) "2024/abc-report.pdf" "doc-1" "job-1" 0).1.body := by
  refine ⟨rfl, rfl, rfl, ?_⟩
  decide

/-- C1 as amended: when the object-storage write and the database
transaction succeed but the worker dispatch fails, the response status is
202 and its body is the `GrpcDispatchException` body — statusCode 202,
error "Processing Deferred" and a message naming the documentId — while
the Document row and the PENDING job row remain in the store. -/
theorem upload_dispatch_failure_deferred_body
    (f : MulterFile) (dtoTitle : Option String) (userId : String)
    (store : GatewayStore) (maxBytes : Nat)
    (storageKey freshDocumentId freshJobId : String) (now : Nat)
    (hvalid : validateFile (some f) maxBytes = .ok ()) :
    uploadDocument (some f) dtoTitle userId store
        { storageFails := false, transactionFails := false, grpcDispatchFails := true }
        maxBytes storageKey freshDocumentId freshJobId now
      = ({ status := 202
           body := .errorBody (uploadErrorBody (.grpcDispatch freshDocumentId)) },
         { documents := store.documents ++
             [uploadedDocumentRecord f dtoTitle userId storageKey freshDocumentId now]
           jobs := store.jobs ++ [uploadedJobRecord freshDocumentId freshJobId now] }) ∧
    (uploadedJobRecord freshDocumentId freshJobId now).status = .pending ∧
    (uploadErrorBody (.grpcDispatch freshDocumentId)).statusCode = 202 := by
  refine ⟨?_, rfl, rfl⟩
  simp [uploadDocument, hvalid, uploadedDocumentRecord, uploadedJobRecord]

/-- Witness for C1's amended theorem at a concrete valid upload. -/
theorem upload_dispatch_failure_deferred_body_witness :
    uploadDocument
        (some { originalname := "report.pdf", mimetype := "application/pdf"
                size := 1048576, hasBuffer := true })
        (some "Roadmap") "u1" { documents := [], jobs := [] }
        { storageFails := false, transactionFails := false, grpcDispatchFails := true }
        (50 * BYTES_PER_MB) "2024/abc-report.pdf" "doc-1" "job-1" 0
      = ({ status := 202
           body := .errorBody (uploadErrorBody (.grpcDispatch "doc-1")) },
         { documents :=
             [uploadedDocumentRecord
               { originalname := "report.pdf", mimetype := "application/pdf"
                 size := 1048576, hasBuffer := true }
               (some "Roadmap") "u1" "2024/abc-report.pdf" "doc-1" 0]
           jobs := [uploadedJobRecord "doc-1" "job-1" 0] }) ∧
    (uploadedJobRecord "doc-1" "job-1" 0).status = .pending ∧
    (uploadErrorBody (.grpcDispatch "doc-1")).statusCode = 202 := by
  have h := upload_dispatch_failure_deferred_body
    { originalname := "report.pdf", mimetype := "application/pdf"
      size := 1048576, hasBuffer := true }
    (some "Roadmap") "u1" { documents := [], jobs := [] } (50 * BYTES_PER_MB)
    "2024/abc-report.pdf" "doc-1" "job-1" 0 rfl
  simpa using h

/-- C8 counterexample: uploading a file named `" report.pdf"` (leading
space) with no title stores the title `" report.pdf"` verbatim, which
differs from the trimmed filename `"report.pdf"`. -/
theorem upload_default_title_not_trimmed_counterexample :
    ((uploadDocument
        (some { originalname := " report.pdf", mimetype := "application/pdf"
                size := 100, hasBuffer := true })
        none "u1" { documents := [], jobs := [] }
        { storageFails := false, transactionFails := false, grpcDispatchFails := false }
        (50 * BYTES_PER_MB) "k" "d1" "j1" 0).2.documents.map Document.title)
      = [" report.pdf"] ∧
    jsTrim " report.pdf" = "report.pdf" ∧
    ((uploadDocument
        (some { originalname := " report.pdf", mimetype := "application/pdf"
                size := 100, hasBuffer := true })
        none "u1" { documents := [], jobs := [] }
        { storageFails := false, transactionFails := false, grpcDispatchFails := false }
        (50 * BYTES_PER_MB) "k" "d1" "j1" 0).2.documents.map Document.title)
      ≠ ["report.pdf"] := by
  refine ⟨rfl, rfl, ?_⟩
  decide

/-- C8 as amended: when no title is provided, the stored Document's title
is the original filename exactly as provided — only an explicitly
provided title is trimmed. -/
theorem upload_title_defaults_to_untrimmed_filename
    (f : MulterFile) (userId : String) (store : GatewayStore) (maxBytes : Nat)
    (storageKey freshDocumentId freshJobId : String) (now : Nat)
    (hvalid : validateFile (some f) maxBytes = .ok ()) :
    (uploadDocument (some f) none userId store
        { storageFails := false, transactionFails := false, grpcDispatchFails := false }
        maxBytes storageKey freshDocumentId freshJobId now).2.documents
      = store.documents ++
        [uploadedDocumentRecord f none userId storageKey freshDocumentId now] ∧
    (uploadedDocumentRecord f none userId storageKey freshDocumentId now).title
      = f.originalname := by
  refine ⟨?_, rfl⟩
  simp [uploadDocument, hvalid, uploadedDocumentRecord]

/-- Witness for C8's amended theorem at the concrete file with a
leading-space filename. -/
theorem upload_title_defaults_to_untrimmed_filename_witness :
    (uploadDocument
        (some { originalname := " report.pdf", mimetype := "application/pdf"
                size := 100, hasBuffer := true })
        none "u1" { documents := [], jobs := [] }
        { storageFails := false, transactionFails := false, grpcDispatchFails := false }
        (50 * BYTES_PER_MB) "k" "d1" "j1" 0).2.documents
      = [uploadedDocumentRecord
          { originalname := " report.pdf", mimetype := "application/pdf"
            size := 100, hasBuffer := true } none "u1" "k" "d1" 0] ∧
    (uploadedDocumentRecord
        { originalname := " report.pdf", mimetype := "application/pdf"
          size := 100, hasBuffer := true } none "u1" "k" "d1" 0).title
      = " report.pdf" := by
  have h := upload_title_defaults_to_untrimmed_filename
    { originalname := " report.pdf", mimetype := "application/pdf"
      size := 100, hasBuffer := true }
    "u1" { documents := [], jobs := [] } (50 * BYTES_PER_MB) "k" "d1" "j1" 0 rfl
  simpa using h

/-! ## Claim C2 -/

/-- C2: (code bug evidence) requesting the progress stream of a jobId
that is not in the store does NOT yield a 404 JSON response. The
controller sets the SSE headers and calls `flushHeaders()` before the
service performs the existence check, so the wire status is the flushed
200 with `Content-Type: text/event-stream`; the service's
`res.status(404).json(...)` then throws `ERR_HTTP_HEADERS_SENT` and no
JSON body is delivered — even though the local status-code field was set
to 404. This contradicts the claim and the controller's own
documentation ("If the job is not found, the service sends a 404 JSON
response instead of opening an SSE stream"). -/
theorem progress_stream_unknown_job_keeps_sse_headers :
    (controllerStreamProgress "3f8e2a10-90ab-4cde-8f12-3456789abcde" []).wireStatus
      = some 200 ∧
    (controllerStreamProgress "3f8e2a10-90ab-4cde-8f12-3456789abcde" []).wireHeaders
      = SSE_HEADERS ∧
    ("Content-Type", "text/event-stream")
      ∈ (controllerStreamProgress "3f8e2a10-90ab-4cde-8f12-3456789abcde" []).wireHeaders ∧
    (controllerStreamProgress "3f8e2a10-90ab-4cde-8f12-3456789abcde" []).jsonDelivered
      = none ∧
    (controllerStreamProgress "3f8e2a10-90ab-4cde-8f12-3456789abcde" []).statusCode = 404 ∧
    (controllerStreamProgress "3f8e2a10-90ab-4cde-8f12-3456789abcde" []).wireStatus
      ≠ some 404 := by
  refine ⟨rfl, rfl, ?_, rfl, rfl, by decide⟩
  decide

/-! ## Claim C9 -/

/-- Running the writes of a connection from any open context: the counter
advances by one per event frame, heartbeats leave it alone, and the
emitted chunks carry ids `n+1, n+2, …` in order. -/
theorem runSseWrites_spec (cmds : List SseWriteCmd) :
    ∀ n res, runSseWrites { eventCounter := n, closed := false } res cmds
      = ({ eventCounter := n + countFrames cmds, closed := false },
         { res with chunks := res.chunks ++ specFrames (n + 1) cmds }) := by
  induction cmds with
  | nil => intro n res; simp [runSseWrites, specFrames, countFrames]
  | cons c rest ih =>
    intro n res
    cases c with
    | frame name data =>
      simp only [runSseWrites, writeSseFrame, resWrite]
      rw [if_neg (by simp)]
      rw [ih]
      simp only [specFrames, countFrames, sseFrameString]
      simp [List.append_assoc]
      omega
    | heartbeat =>
      simp only [runSseWrites, writeHeartbeat, resWrite]
      rw [if_neg (by simp)]
      rw [ih]
      simp [specFrames, countFrames, List.append_assoc]

/-- C9: within one SSE connection every non-heartbeat frame is written as
`id: {counter}\nevent: {name}\ndata: {json}\n\n` with ids starting at 1
and increasing by exactly one per event frame (hence strictly
increasing), while heartbeat frames consist only of `: heartbeat\n\n` and
do not advance the counter. -/
theorem sse_frames_numbered_from_one (cmds : List SseWriteCmd)
    (res : HttpResponseModel) :
    runSseWrites { eventCounter := 0, closed := false } res cmds
      = ({ eventCounter := countFrames cmds, closed := false },
         { res with chunks := res.chunks ++ specFrames 1 cmds }) := by
  simpa using runSseWrites_spec cmds 0 res

end DocFlow
